import Mathlib

/-!
Verification of the authenticated HTTP / SQL execution core of a TypeScript
SDK for a cloud ML database.  The definitions below are a shallow embedding
of the source files: the cookie parser and retry interceptor
(`util/http.ts`), the session authenticator (`httpAuthenticator.ts`), the
SQL REST client (`sql/sqlRestApiClient.ts`) and the error wrapper
(`errors.ts`).  JavaScript objects used as string-keyed dictionaries are
modelled as insertion-ordered association lists, `undefined`-able values as
`Option`, thrown exceptions as `Except`, and the Axios transport as an
oracle function from call index and request configuration to an outcome,
threaded through an explicit `World` state.
-/

namespace MindsDbSdk

/-- JSON-like cell values occurring in SQL API payloads (TypeScript `any`). -/
inductive JsValue where
  | str (s : String)
  | num (n : Int)
  | jsBool (b : Bool)
  | null
deriving Repr, DecidableEq

/-- A JavaScript object used as a dictionary from column name to value,
modelled as an insertion-ordered association list with unique keys. -/
abbrev RowRecord := List (String × JsValue)

/-- JavaScript property assignment `row[k] = v`: if the key is present its
value is replaced in place (insertion order kept), otherwise the pair is
appended. -/
def objSet (row : RowRecord) (k : String) (v : JsValue) : RowRecord :=
  if row.any (fun p => p.1 = k) then
    row.map (fun p => if p.1 = k then (k, v) else p)
  else
    row ++ [(k, v)]

/-- JavaScript property read `row[k]`, `none` when the key is absent. -/
def objGet (row : RowRecord) (k : String) : Option JsValue :=
  (row.find? (fun p => p.1 = k)).map (fun p => p.2)

/-- Structure of the API response data from the `/api/sql/query` endpoint
(`sqlApiResponse.ts`).  The declared TypeScript interface marks
`column_names` and `data` required, but the client code defends against
their absence with `|| []`, so they are embedded as `Option`. -/
structure SqlApiResponse where
  column_names : Option (List String)
  context : Option JsValue
  type : String
  data : Option (List (List JsValue))
  error_message : Option String
deriving Repr, DecidableEq

/-- Structure of the SQL query result returned by the SDK
(`sqlQueryResult.ts`). -/
structure SqlQueryResult where
  columnNames : List String
  context : Option JsValue
  type : String
  rows : List RowRecord
  error_message : Option String
deriving Repr, DecidableEq

/-- Character-level model of JavaScript `String.prototype.toLowerCase`,
lower-casing each character (faithful on the ASCII data this core
handles). -/
def toLowerCase (s : String) : String := String.mk (s.data.map Char.toLower)

/-- Worker for `jsSplit`: splits the remaining characters at every
occurrence of the separator, accumulating the current piece reversed. -/
def splitCharAux (sep : Char) : List Char → List Char → List String
  | [], acc => [String.mk acc.reverse]
  | c :: cs, acc =>
    if c = sep then String.mk acc.reverse :: splitCharAux sep cs []
    else splitCharAux sep cs (c :: acc)

/-- Character-level model of JavaScript `String.prototype.split` with a
one-character separator: `""` splits to `[""]`, and adjacent separators
produce empty pieces, as in JavaScript. -/
def jsSplit (s : String) (sep : Char) : List String :=
  splitCharAux sep s.data []

/-- Character-level model of JavaScript `String.prototype.trim`: removes
leading and trailing whitespace. -/
def jsTrim (s : String) : String :=
  String.mk (((s.data.dropWhile Char.isWhitespace).reverse.dropWhile
    Char.isWhitespace).reverse)

/-- The key used by `row[colName] = rowVal` at column position `j`:
`respColumnNames[j]` when in range, and the string `"undefined"` otherwise,
because JavaScript coerces an `undefined` property key to that string. -/
def jsKey (colNames : List String) (j : Nat) : String :=
  (colNames.get? j).getD "undefined"

/-- The inner loop of `makeQueryResult`: starting at column position `j`,
assign each remaining raw value into the row object. -/
def buildRowFrom (colNames : List String) : Nat → List JsValue → RowRecord → RowRecord
  | _, [], row => row
  | j, v :: vs, row => buildRowFrom colNames (j + 1) vs (objSet row (jsKey colNames j) v)

/-- Builds one result row from a raw row (fixed-order value array), as the
inner `for` loop of `SqlRestApiClient.makeQueryResult` does. -/
def buildRow (colNames : List String) (rawRow : List JsValue) : RowRecord :=
  buildRowFrom colNames 0 rawRow []

/-- Embedding of `SqlRestApiClient.makeQueryResult`: lower-cases the column
names (absent `column_names` defaults to `[]`), copies `context`, `type` and
`error_message` through, and builds one row object per raw data row (absent
`data` defaults to `[]`). -/
def makeQueryResult (response : SqlApiResponse) : SqlQueryResult :=
  let respColumnNames := (response.column_names.getD []).map toLowerCase
  { columnNames := respColumnNames
    context := response.context
    type := response.type
    rows := (response.data.getD []).map (fun rawRow => buildRow respColumnNames rawRow)
    error_message := response.error_message }

/-- Embedding of `getCookieValue` (`util/http.ts`): for each raw cookie
header, split on `;`, trim each component and split it on `=`; if the first
key of the first component equals the wanted cookie key, return the
corresponding value (`none` when the component has no `=`, as the
JavaScript indexing yields `undefined` there); otherwise continue with the
remaining headers.  It is a pure function of its two arguments. -/
def getCookieValue : List String → String → Option String
  | [], _ => none
  | c :: rest, cookieKey =>
    if ((((jsSplit c ';').map fun comp => jsSplit (jsTrim comp) '=').headD []).headD "")
        = cookieKey then
      (((jsSplit c ';').map fun comp => jsSplit (jsTrim comp) '=').headD []).get? 1
    else
      getCookieValue rest cookieKey

/-- The key of the leading semicolon-separated attribute of a raw cookie
header, after trimming. -/
def leadingAttrKey (header : String) : String :=
  (jsSplit (jsTrim ((jsSplit header ';').headD "")) '=').headD ""

/-- The value of the leading semicolon-separated attribute of a raw cookie
header: the text between the first `=` and the second `=` or the end,
`none` when the attribute has no `=`. -/
def leadingAttrValue (header : String) : Option String :=
  (jsSplit (jsTrim ((jsSplit header ';').headD "")) '=').get? 1

namespace Constants

/-- Constant `BASE_CLOUD_API_ENDPOINT` from `constants.ts`. -/
def BASE_CLOUD_API_ENDPOINT : String := "https://cloud.mindsdb.com"

/-- Constant `BASE_LOGIN_URI` from `constants.ts`. -/
def BASE_LOGIN_URI : String := "/cloud/login"

/-- Constant `BASE_MANAGED_LOGIN_URI` from `constants.ts`. -/
def BASE_MANAGED_LOGIN_URI : String := "/api/login"

/-- Constant `BASE_SQL_URI` from `constants.ts`. -/
def BASE_SQL_URI : String := "/api/sql/query"

end Constants

namespace HttpStatusCode

/-- Axios `HttpStatusCode.BadRequest`. -/
def BadRequest : Nat := 400

/-- Axios `HttpStatusCode.Unauthorized`. -/
def Unauthorized : Nat := 401

/-- Axios `HttpStatusCode.Forbidden`. -/
def Forbidden : Nat := 403

/-- Axios `HttpStatusCode.NotFound`. -/
def NotFound : Nat := 404

/-- Axios `HttpStatusCode.RequestTimeout`. -/
def RequestTimeout : Nat := 408

/-- Axios `HttpStatusCode.TooManyRequests`. -/
def TooManyRequests : Nat := 429

/-- Axios `HttpStatusCode.InternalServerError`. -/
def InternalServerError : Nat := 500

/-- Axios `HttpStatusCode.BadGateway`. -/
def BadGateway : Nat := 502

/-- Axios `HttpStatusCode.ServiceUnavailable`. -/
def ServiceUnavailable : Nat := 503

/-- Axios `HttpStatusCode.GatewayTimeout`. -/
def GatewayTimeout : Nat := 504

end HttpStatusCode

/-- Model of WHATWG `new URL(path, base)` resolution for the shapes the SDK
uses: a host-only base URL and an absolute path. -/
def urlJoin (base path : String) : String := base ++ path

/-- The headers the embedding tracks on a request configuration: only the
`Cookie` header is ever read or written by this core. -/
structure RequestHeaders where
  Cookie : Option String
deriving Repr, DecidableEq

/-- The body of an outbound POST: either the login payload
`{email, username, password}` built by `authenticate`, or the query payload
`{query}` built by `runQuery`. -/
inductive RequestBody where
  | loginBody (email username password : String)
  | queryBody (query : String)
deriving Repr, DecidableEq

/-- An Axios request configuration (`InternalAxiosRequestConfig`), extended
with the one-shot `_retried` marker the retry interceptor stores on it. -/
structure RequestConfig where
  url : String
  body : RequestBody
  headers : RequestHeaders
  retried : Bool
deriving Repr, DecidableEq

/-- An Axios response: HTTP status, the `set-cookie` response headers (absent
when the server sent none) and the parsed JSON body. -/
structure HttpResponseModel where
  status : Nat
  setCookie : Option (List String)
  data : SqlApiResponse
deriving Repr, DecidableEq

/-- An `AxiosError`: the request configuration it was raised for (absent for
errors thrown before a config existed), the response when one was received,
whether the request was sent at all, and the error message. -/
structure AxiosErrorModel where
  config : Option RequestConfig
  response : Option HttpResponseModel
  request : Bool
  message : String
deriving Repr, DecidableEq

/-- The mutable fields of `HttpAuthenticator`: the stored session cookie and
the credentials retained for reauthentication. -/
structure AuthState where
  session : Option String
  user : String
  password : String
  managed : Bool
deriving Repr, DecidableEq

/-- The initial `HttpAuthenticator` state: no session, empty credentials. -/
def initialAuthState : AuthState :=
  { session := none, user := "", password := "", managed := false }

/-- Outcome of one transport-level request: a response, or a thrown
`AxiosError`. -/
inductive HttpOutcome where
  | success (resp : HttpResponseModel)
  | failure (e : AxiosErrorModel)
deriving Repr, DecidableEq

/-- The world a stateful operation runs in: the transport oracle (mapping
the index of a transport invocation and the request configuration to its
outcome), the configured base URL (`client.defaults.baseURL`), the ordered
log of every transport invocation made so far, and the authenticator
state. -/
structure World where
  transport : Nat → RequestConfig → HttpOutcome
  baseURL : Option String
  calls : List RequestConfig
  auth : AuthState

/-- One transport-level request: consults the oracle at the current call
index, appends the configuration to the call log, and — as Axios does —
attaches the request configuration to a thrown error. -/
def rawCall (w : World) (cfg : RequestConfig) : World × HttpOutcome :=
  match w.transport w.calls.length cfg with
  | .success r => ({ w with calls := w.calls ++ [cfg] }, .success r)
  | .failure e => ({ w with calls := w.calls ++ [cfg] }, .failure { e with config := some cfg })

/-- JavaScript falsiness of a `string | undefined` value: `undefined` and the
empty string are falsy. -/
def isFalsy : Option String → Bool
  | none => true
  | some s => s.isEmpty

/-- JavaScript template-literal rendering of a `string | undefined` value:
`undefined` prints as the string `"undefined"`. -/
def sessionText : Option String → String
  | none => "undefined"
  | some s => s

/-- Embedding of `getBaseRequestConfig` (`util/http.ts`): attaches the
`Cookie: session=...` header exactly when the authenticator currently holds
a truthy session. -/
def getBaseRequestConfig (auth : AuthState) : RequestHeaders :=
  if isFalsy auth.session then { Cookie := none }
  else { Cookie := some ("session=" ++ sessionText auth.session) }

/-- The request configuration of the login POST sent by `authenticate`: the
login path is the managed one exactly when the `managed` argument is truthy,
resolved against the configured base URL (or the cloud default), and the
body carries the just-stored credentials as `{email, username, password}`. -/
def loginRequestConfig (baseURL : Option String) (user password : String)
    (managed : Option Bool) : RequestConfig :=
  { url := urlJoin (baseURL.getD Constants.BASE_CLOUD_API_ENDPOINT)
      (if managed.getD false then Constants.BASE_MANAGED_LOGIN_URI
       else Constants.BASE_LOGIN_URI)
    body := .loginBody user user password
    headers := { Cookie := none }
    retried := false }

/-- Embedding of `HttpAuthenticator.authenticate`: first stores the supplied
credentials and managed flag (an absent `managed` argument is stored as
`false`), then POSTs them to the login endpoint; a transport failure
propagates (credentials stay stored, session untouched), and on success the
session is replaced by the `session` cookie extracted from the response
`set-cookie` headers (absent headers default to `[]`). -/
def authenticate (w : World) (user password : String) (managed : Option Bool) :
    World × Except AxiosErrorModel Unit :=
  let a0 : AuthState :=
    { w.auth with user := user, password := password, managed := managed.getD false }
  let w0 : World := { w with auth := a0 }
  match rawCall w0 (loginRequestConfig w0.baseURL user password managed) with
  | (w1, .failure e) => (w1, .error e)
  | (w1, .success resp) =>
    ({ w1 with auth := { w1.auth with
        session := getCookieValue (resp.setCookie.getD []) "session" } }, .ok ())

/-- Embedding of `HttpAuthenticator.handleReauthentication`: returns `false`
with no transport activity when the stored session is falsy, the observed
error is absent, the error has no response, or the response status is
neither 401 nor 403; otherwise re-invokes `authenticate` with the stored
credentials, propagating a failed re-login and returning `true` on
success. -/
def handleReauthentication (w : World) (error : Option AxiosErrorModel) :
    World × Except AxiosErrorModel Bool :=
  match error with
  | none => (w, .ok false)
  | some err =>
    if isFalsy w.auth.session then (w, .ok false)
    else
      match err.response with
      | none => (w, .ok false)
      | some resp =>
        if resp.status ≠ HttpStatusCode.Unauthorized ∧
            resp.status ≠ HttpStatusCode.Forbidden then
          (w, .ok false)
        else
          match authenticate w w.auth.user w.auth.password (some w.auth.managed) with
          | (w1, .error e) => (w1, .error e)
          | (w1, .ok _) => (w1, .ok true)

/-- The body of `retryUnauthenticatedRequest` (`util/http.ts`),
parameterized by the client request function used for the replay: rethrows
when the error captured no configuration or the configuration already
carries the `_retried` marker; otherwise runs `handleReauthentication`
(whose own failure propagates), rethrows the original error when it returns
`false`, and when it returns `true` replays the original configuration with
its `Cookie` header set to the fresh session and the marker set. -/
def retryWith
    (request : World → RequestConfig → World × Except AxiosErrorModel HttpResponseModel)
    (w : World) (error : AxiosErrorModel) :
    World × Except AxiosErrorModel HttpResponseModel :=
  match error.config with
  | none => (w, .error error)
  | some originalRequestConfig =>
    if originalRequestConfig.retried then (w, .error error)
    else
      match handleReauthentication w (some error) with
      | (w1, .error e) => (w1, .error e)
      | (w1, .ok false) => (w1, .error error)
      | (w1, .ok true) =>
        request w1
          { originalRequestConfig with
            headers := { Cookie := some ("session=" ++ sessionText w1.auth.session) }
            retried := true }

/-- A placeholder error for a fuel-exhausted request loop; unreachable in
every theorem below, which all supply enough fuel. -/
def outOfFuel : AxiosErrorModel :=
  { config := none, response := none, request := false, message := "out of fuel" }

/-- A request issued through the Axios client with the response interceptor
from `index.ts` installed: one transport invocation, and on failure the
interceptor `retryUnauthenticatedRequest` runs, whose replay goes through
the client (hence through the interceptor) again.  The `fuel` argument
bounds this replay nesting; the one-shot marker makes depth 2 sufficient. -/
def axiosRequest : Nat → World → RequestConfig →
    World × Except AxiosErrorModel HttpResponseModel
  | 0, w, _ => (w, .error outOfFuel)
  | fuel + 1, w, cfg =>
    match rawCall w cfg with
    | (w1, .success r) => (w1, .ok r)
    | (w1, .failure e) => retryWith (fun w2 cfg2 => axiosRequest fuel w2 cfg2) w1 e

/-- Embedding of `retryUnauthenticatedRequest` as installed on the client:
its replay request is an intercepted client request with the given fuel. -/
def retryUnauthenticatedRequest (fuel : Nat) (w : World) (error : AxiosErrorModel) :
    World × Except AxiosErrorModel HttpResponseModel :=
  retryWith (fun w2 cfg2 => axiosRequest fuel w2 cfg2) w error

/-- Whether a request configuration is a login POST. -/
def isLoginCall (cfg : RequestConfig) : Bool :=
  match cfg.body with
  | .loginBody _ _ _ => true
  | .queryBody _ => false

/-- Number of non-login (query-style) transport invocations in a call log. -/
def queryCallCount (calls : List RequestConfig) : Nat :=
  (calls.filter (fun c => !isLoginCall c)).length

/-- Number of login transport invocations in a call log. -/
def loginCallCount (calls : List RequestConfig) : Nat :=
  (calls.filter (fun c => isLoginCall c)).length

/-- Embedding of `SqlRestApiClient.getQueryUrl`. -/
def getQueryUrl (w : World) : String :=
  urlJoin (w.baseURL.getD Constants.BASE_CLOUD_API_ENDPOINT) Constants.BASE_SQL_URI

/-- The request configuration of the query POST sent by `runQuery`. -/
def queryRequestConfig (w : World) (query : String) : RequestConfig :=
  { url := getQueryUrl w
    body := .queryBody query
    headers := getBaseRequestConfig w.auth
    retried := false }

/-- The value thrown inside the `try` block of `runQuery`: an `AxiosError`
from the transport, or any other thrown value rendered as its string
coercion. -/
inductive CaughtError where
  | axios (e : AxiosErrorModel)
  | other (s : String)
deriving Repr, DecidableEq

/-- Rendering of `axiosError.response?.status` in a template literal. -/
def statusText : Option HttpResponseModel → String
  | none => "undefined"
  | some r => toString r.status

/-- Embedding of `MindsDbError.getBaseAxiosErrorMessage`. -/
def getBaseAxiosErrorMessage (e : AxiosErrorModel) : String :=
  "Request failed with status code " ++ statusText e.response ++ ". "

/-- Embedding of `MindsDbError.fromAxiosError` (`errors.ts`); the resulting
`MindsDbError` is modelled by its message string.  Each branch reproduces
the corresponding template literal of the source, including the double
space a template like `` `${baseMsg} MindsDB ...` `` produces, since
`baseMsg` already ends in a space. -/
def fromAxiosError (e : AxiosErrorModel) : String :=
  let baseMsg := getBaseAxiosErrorMessage e
  match e.response with
  | some resp =>
    if resp.status = HttpStatusCode.BadRequest then
      baseMsg ++ " MindsDB received an invalid request and can\x27t process it."
    else if resp.status = HttpStatusCode.Unauthorized then
      baseMsg ++ " Did you provide the right username and password to the \x27connect\x27 method before using the SDK?"
    else if resp.status = HttpStatusCode.Forbidden then
      baseMsg ++ " You don\x27t have permission to access this resource. Did you provide the right username and password to the \x27connect\x27 method before using the SDK?"
    else if resp.status = HttpStatusCode.NotFound then
      baseMsg ++ " This MindsDB resource doesn\x27t exist."
    else if resp.status = HttpStatusCode.TooManyRequests then
      baseMsg ++ " The number of requests you sent has exceeded the MindsDB API limit. Please contact us to request a limit increase."
    else if resp.status = HttpStatusCode.RequestTimeout ∨
        resp.status = HttpStatusCode.GatewayTimeout then
      baseMsg ++ " The request took too long to complete. Please try again."
    else if resp.status = HttpStatusCode.InternalServerError ∨
        resp.status = HttpStatusCode.BadGateway ∨
        resp.status = HttpStatusCode.ServiceUnavailable then
      baseMsg ++ " Oops! Something went wrong on our end. Please try again."
    else
      baseMsg ++ " Full message: " ++ e.message
  | none =>
    if e.request then
      "The request was made but no response was received. Something may be wrong on our end. Please try again."
    else
      e.message

/-- Embedding of `MindsDbError.fromHttpError` (`errors.ts`): an `AxiosError`
is classified by `fromAxiosError`; any other thrown value is wrapped in a
generic message that names the failing URL. -/
def fromHttpError (error : CaughtError) (url : String) : String :=
  match error with
  | .axios e => fromAxiosError e
  | .other s =>
    "Something went wrong handling HTTP POST request to " ++ url ++ ": " ++ s

/-- Embedding of `SqlRestApiClient.runQuery`: builds the query POST with the
base request configuration (session cookie attached when present), sends it
once — retrying is not its business — and either normalizes the response
body through `makeQueryResult` or wraps the thrown error with
`MindsDbError.fromHttpError` and the query URL. -/
def runQuery (w : World) (query : String) : World × Except String SqlQueryResult :=
  let queryUrl := getQueryUrl w
  match rawCall w (queryRequestConfig w query) with
  | (w1, .success resp) => (w1, .ok (makeQueryResult resp.data))
  | (w1, .failure e) => (w1, .error (fromHttpError (.axios e) queryUrl))

/-- Specification-side helper for row semantics: the raw value at the LAST
position `t` of `rawRow` (offset by `j0` into the column list) whose
assignment key equals `k`; `none` when no position matches. -/
def lastZipValue (colNames : List String) : Nat → List JsValue → String → Option JsValue
  | _, [], _ => none
  | j0, v :: vs, k =>
    match lastZipValue colNames (j0 + 1) vs k with
    | some v2 => some v2
    | none => if jsKey colNames j0 = k then some v else none

/-! Concrete fixtures used to instantiate the theorems below. -/

/-- An empty SQL API payload, used as the body of responses whose body is
irrelevant (login responses, error responses). -/
def emptyApiResponse : SqlApiResponse :=
  { column_names := none, context := none, type := "ok", data := none,
    error_message := none }

/-- A `type = "error"` payload that nevertheless carries a data row. -/
def errorWithDataResponse : SqlApiResponse :=
  { column_names := some ["a"], context := none, type := "error",
    data := some [[JsValue.str "v"]], error_message := some "boom" }

/-- A `type = "ok"` payload that nevertheless carries an error message. -/
def okWithMessageResponse : SqlApiResponse :=
  { column_names := some [], context := none, type := "ok", data := none,
    error_message := some "x" }

/-- A 2xx `type = "error"` payload with message `boom` and no data rows. -/
def errorBoomResponse : SqlApiResponse :=
  { column_names := some ["a"], context := none, type := "error",
    data := none, error_message := some "boom" }

/-- A payload whose two column names collide after lower-casing. -/
def collideResponse : SqlApiResponse :=
  { column_names := some ["Col_A", "col_a"], context := none, type := "table",
    data := some [[JsValue.str "v1", JsValue.str "v2"]], error_message := none }

/-- The payload of the specification test: columns `Col_A`, `COL_B` and one
row `v1`, `v2`. -/
def specTestResponse : SqlApiResponse :=
  { column_names := some ["Col_A", "COL_B"], context := none, type := "table",
    data := some [[JsValue.str "v1", JsValue.str "v2"]], error_message := none }

/-- A payload with one column but a two-value data row. -/
def longRowResponse : SqlApiResponse :=
  { column_names := some ["a"], context := none, type := "table",
    data := some [[JsValue.str "v1", JsValue.str "v2"]], error_message := none }

/-- A 401 `AxiosError` as produced by the transport (configuration attached
by `rawCall`). -/
def unauthorizedError : AxiosErrorModel :=
  { config := none
    response := some { status := 401, setCookie := none, data := emptyApiResponse }
    request := true
    message := "Request failed with status code 401" }

/-- A 403 `AxiosError`. -/
def forbiddenError : AxiosErrorModel :=
  { config := none
    response := some { status := 403, setCookie := none, data := emptyApiResponse }
    request := true
    message := "Request failed with status code 403" }

/-- A 500 `AxiosError`. -/
def serverError : AxiosErrorModel :=
  { config := none
    response := some { status := 500, setCookie := none, data := emptyApiResponse }
    request := true
    message := "Request failed with status code 500" }

/-- A 400 `AxiosError`. -/
def badRequestError : AxiosErrorModel :=
  { config := none
    response := some { status := 400, setCookie := none, data := emptyApiResponse }
    request := true
    message := "Request failed with status code 400" }

/-- A successful login response carrying a fresh session cookie. -/
def loginOkResponse : HttpResponseModel :=
  { status := 200
    setCookie := some ["session=newtok; Path=/; HttpOnly"]
    data := emptyApiResponse }

/-- A successful query response with one column and one row. -/
def tableOkResponse : HttpResponseModel :=
  { status := 200
    setCookie := none
    data := { column_names := some ["x"], context := none, type := "table",
              data := some [[JsValue.num 1]], error_message := none } }

/-- The scenario transport of the specification: the original query fails
with 401 (call 0), the login succeeds with a fresh session cookie (call 1),
and the replayed query succeeds with 200 (call 2). -/
def scenarioTransport : Nat → RequestConfig → HttpOutcome
  | 0, _ => .failure unauthorizedError
  | 1, _ => .success loginOkResponse
  | _, _ => .success tableOkResponse

/-- An established-session authenticator state for the scenarios. -/
def scenarioAuth : AuthState :=
  { session := some "oldtok", user := "alice", password := "pw", managed := false }

/-- The world of the 401-then-200 scenario. -/
def scenarioWorld : World :=
  { transport := scenarioTransport, baseURL := none, calls := [],
    auth := scenarioAuth }

/-- The original query configuration of the 401-then-200 scenario. -/
def scenarioConfig : RequestConfig := queryRequestConfig scenarioWorld "SELECT 1"

/-- A transport that answers 401 to every request, logins included. -/
def always401Transport : Nat → RequestConfig → HttpOutcome :=
  fun _ _ => .failure unauthorizedError

/-- The world of the always-401 scenario. -/
def always401World : World :=
  { transport := always401Transport, baseURL := none, calls := [],
    auth := scenarioAuth }

/-- A transport whose every response is a successful login. -/
def loginOkTransport : Nat → RequestConfig → HttpOutcome :=
  fun _ _ => .success loginOkResponse

/-- A world with an established session in front of `loginOkTransport`. -/
def authedWorld : World :=
  { transport := loginOkTransport, baseURL := none, calls := [],
    auth := scenarioAuth }

/-- A world in which no session was ever established. -/
def noSessionWorld : World :=
  { transport := loginOkTransport, baseURL := none, calls := [],
    auth := initialAuthState }

/-- A query configuration already carrying the one-shot retried marker. -/
def retriedConfig : RequestConfig :=
  { url := urlJoin Constants.BASE_CLOUD_API_ENDPOINT Constants.BASE_SQL_URI
    body := .queryBody "SELECT 1"
    headers := { Cookie := some "session=oldtok" }
    retried := true }

/-- A 401 error whose captured configuration is already marked retried. -/
def retriedError : AxiosErrorModel :=
  { unauthorizedError with config := some retriedConfig }

/-- A world whose transport always fails with a 400 error. -/
def badRequestWorld : World :=
  { transport := fun _ _ => .failure badRequestError, baseURL := none,
    calls := [], auth := initialAuthState }

/-- The 400 error with the query configuration attached, as `rawCall`
attaches it. -/
def badRequestErrorAttached : AxiosErrorModel :=
  { badRequestError with config := some (queryRequestConfig badRequestWorld "SELECT 1") }

/-- The error the interceptor observes in the 401-then-200 scenario: the 401
failure with the original query configuration attached. -/
def scenarioError : AxiosErrorModel :=
  { unauthorizedError with config := some scenarioConfig }

/-- The scenario world right after the original query call was logged. -/
def scenarioAfter401 : World := (rawCall scenarioWorld scenarioConfig).1

/-- The scenario world after reauthentication succeeded. -/
def scenarioReauthedWorld : World :=
  (handleReauthentication scenarioAfter401 (some scenarioError)).1

/-- The replay configuration the interceptor builds from an original
configuration after a successful reauthentication in world `w1`: same URL
and body, `Cookie` header carrying the fresh session, marker set. -/
def retriedReplayConfig (cfg : RequestConfig) (w1 : World) : RequestConfig :=
  { cfg with
    headers := { Cookie := some ("session=" ++ sessionText w1.auth.session) }
    retried := true }

/-! Helper lemmas about the JavaScript-object model of result rows. -/

/-- Searching a key after the in-place replacement step of `objSet`: for the
assigned key, the first entry holding it is replaced; other keys are
untouched. -/
theorem find?_mapSet (row : RowRecord) (k0 k : String) (v : JsValue) :
    (row.map fun p => if p.1 = k0 then (k0, v) else p).find? (fun p => p.1 = k) =
      if k0 = k then (row.find? fun p => p.1 = k0).map (fun _ => (k0, v))
      else row.find? (fun p => p.1 = k) := by
  induction row with
  | nil => by_cases hkk : k0 = k <;> simp [hkk]
  | cons p rest ih =>
    by_cases hp0 : p.1 = k0
    · by_cases hkk : k0 = k
      · subst hkk
        simp only [List.map_cons, if_pos hp0]
        rw [List.find?_cons_of_pos _ (by simp),
          List.find?_cons_of_pos _ (by simpa using hp0)]
        rfl
      · simp only [List.map_cons, if_pos hp0]
        rw [List.find?_cons_of_neg _ (by simpa using hkk), ih, if_neg hkk, if_neg hkk,
          List.find?_cons_of_neg _ (by rw [hp0]; simpa using hkk)]
    · simp only [List.map_cons, if_neg hp0]
      by_cases hpk : p.1 = k
      · have hkk : ¬ k0 = k := by
          intro h
          exact hp0 (by rw [hpk, h])
        rw [List.find?_cons_of_pos _ (by simpa using hpk), if_neg hkk,
          List.find?_cons_of_pos _ (by simpa using hpk)]
      · rw [List.find?_cons_of_neg _ (by simpa using hpk), ih]
        by_cases hkk : k0 = k
        · rw [if_pos hkk, if_pos hkk, List.find?_cons_of_neg _ (by simpa using hp0)]
        · rw [if_neg hkk, if_neg hkk, List.find?_cons_of_neg _ (by simpa using hpk)]

/-- Reading a key after a JavaScript assignment: the assigned key now holds
the assigned value, every other key is untouched. -/
theorem objGet_objSet (row : RowRecord) (k0 k : String) (v : JsValue) :
    objGet (objSet row k0 v) k = if k0 = k then some v else objGet row k := by
  unfold objGet objSet
  by_cases hany : (row.any fun p => decide (p.1 = k0)) = true
  · rw [if_pos hany, find?_mapSet]
    by_cases hkk : k0 = k
    · rw [if_pos hkk, if_pos hkk]
      have hsome : (row.find? fun p => decide (p.1 = k0)).isSome := by
        rw [List.find?_isSome]
        exact List.any_eq_true.mp hany
      obtain ⟨y, hy⟩ := Option.isSome_iff_exists.mp hsome
      rw [hy]
      rfl
    · rw [if_neg hkk, if_neg hkk]
  · rw [if_neg hany, List.find?_append]
    have hanyf : (row.any fun p => decide (p.1 = k0)) = false :=
      Bool.eq_false_iff.mpr hany
    have hnone : row.find? (fun p => decide (p.1 = k0)) = none := by
      rw [List.find?_eq_none]
      exact List.any_eq_false.mp hanyf
    by_cases hkk : k0 = k
    · subst hkk
      rw [hnone]
      rw [List.find?_cons_of_pos _ (by simp)]
      simp
    · rw [List.find?_cons_of_neg _ (by simpa using hkk)]
      simp only [List.find?_nil, Option.or_none]
      rw [if_neg hkk]

/-- The keys of a row after a JavaScript assignment: unchanged when the key
was present, the key appended otherwise. -/
theorem keys_objSet (row : RowRecord) (k0 : String) (v : JsValue) :
    (objSet row k0 v).map Prod.fst =
      if row.any (fun p => p.1 = k0) then row.map Prod.fst
      else row.map Prod.fst ++ [k0] := by
  by_cases hany : row.any (fun p => p.1 = k0)
  · rw [if_pos hany]
    unfold objSet
    rw [if_pos hany, List.map_map]
    apply List.map_congr_left
    intro p _
    by_cases hp : p.1 = k0 <;> simp [hp]
  · rw [if_neg hany]
    unfold objSet
    rw [if_neg hany]
    simp

/-- A JavaScript assignment keeps the row keys duplicate-free. -/
theorem nodupKeys_objSet (row : RowRecord) (k0 : String) (v : JsValue)
    (hnd : (row.map Prod.fst).Nodup) : ((objSet row k0 v).map Prod.fst).Nodup := by
  rw [keys_objSet]
  by_cases hany : row.any (fun p => p.1 = k0)
  · simpa [hany] using hnd
  · rw [if_neg hany]
    apply List.Nodup.append hnd (List.nodup_singleton k0)
    intro x hx hx2
    simp only [List.mem_singleton] at hx2
    subst hx2
    simp only [List.mem_map] at hx
    obtain ⟨p, hp, hpk⟩ := hx
    simp only [List.any_eq_true, decide_eq_true_eq] at hany
    exact hany ⟨p, hp, hpk⟩

/-- The row built by the assignment loop keeps duplicate-free keys. -/
theorem nodupKeys_buildRowFrom (colNames : List String) (r : List JsValue) :
    ∀ (j0 : Nat) (row : RowRecord), (row.map Prod.fst).Nodup →
    ((buildRowFrom colNames j0 r row).map Prod.fst).Nodup := by
  induction r with
  | nil => intro j0 row hnd; simpa [buildRowFrom] using hnd
  | cons v vs ih =>
    intro j0 row hnd
    exact ih (j0 + 1) _ (nodupKeys_objSet row (jsKey colNames j0) v hnd)

/-- Reading any key of a row built by the assignment loop: the value at the
last matching position wins; keys matching no position fall back to the
accumulator. -/
theorem objGet_buildRowFrom (colNames : List String) (r : List JsValue) :
    ∀ (j0 : Nat) (row : RowRecord) (k : String),
    objGet (buildRowFrom colNames j0 r row) k =
      match lastZipValue colNames j0 r k with
      | some v => some v
      | none => objGet row k := by
  induction r with
  | nil => intro j0 row k; simp [buildRowFrom, lastZipValue]
  | cons v vs ih =>
    intro j0 row k
    show objGet (buildRowFrom colNames (j0 + 1) vs (objSet row (jsKey colNames j0) v)) k = _
    rw [ih]
    cases hz : lastZipValue colNames (j0 + 1) vs k with
    | some v2 => simp [lastZipValue, hz]
    | none =>
      simp only [lastZipValue, hz]
      rw [objGet_objSet]
      by_cases hk : jsKey colNames j0 = k <;> simp [hk]

/-- When no position of the raw row matches the key, `lastZipValue` finds
nothing. -/
theorem lastZipValue_eq_none (colNames : List String) (r : List JsValue) :
    ∀ (j0 : Nat) (k : String), (∀ t, t < r.length → jsKey colNames (j0 + t) ≠ k) →
    lastZipValue colNames j0 r k = none := by
  induction r with
  | nil => intro j0 k _; rfl
  | cons v vs ih =>
    intro j0 k hnone
    have htail : lastZipValue colNames (j0 + 1) vs k = none := by
      apply ih
      intro t ht
      have h1 := hnone (t + 1) (by simpa using Nat.succ_lt_succ ht)
      have h2 : j0 + 1 + t = j0 + (t + 1) := by omega
      rw [h2]
      exact h1
    have hhead : ¬ jsKey colNames j0 = k := by simpa using hnone 0 (by simp)
    rw [lastZipValue, htail]
    simp [hhead]

/-- When the key at the final position of the raw row matches, that final
value is the one `lastZipValue` returns. -/
theorem lastZipValue_lastPos (colNames : List String) (r : List JsValue) :
    ∀ (j0 : Nat) (k : String), r ≠ [] → jsKey colNames (j0 + r.length - 1) = k →
    lastZipValue colNames j0 r k = r.get? (r.length - 1) := by
  induction r with
  | nil => intro _ _ h; exact absurd rfl h
  | cons v vs ih =>
    intro j0 k _ hk
    cases vs with
    | nil =>
      simp only [List.length_cons, List.length_nil, Nat.zero_add, Nat.add_sub_cancel] at hk ⊢
      simp [lastZipValue, hk]
    | cons v2 vs2 =>
      have htail : lastZipValue colNames (j0 + 1) (v2 :: vs2) k =
          (v2 :: vs2).get? ((v2 :: vs2).length - 1) := by
        apply ih (j0 + 1) k (by simp)
        have h2 : j0 + 1 + (v2 :: vs2).length - 1 = j0 + (v :: v2 :: vs2).length - 1 := by
          simp only [List.length_cons]
          omega
        rw [h2]
        exact hk
      have hsome : ((v2 :: vs2).get? ((v2 :: vs2).length - 1)).isSome := by
        rw [Option.isSome_iff_ne_none]
        intro hcon
        rw [List.get?_eq_none] at hcon
        simp only [List.length_cons] at hcon
        omega
      obtain ⟨w2, hw2⟩ := Option.isSome_iff_exists.mp hsome
      have h3 : (v :: v2 :: vs2).length - 1 = ((v2 :: vs2).length - 1) + 1 := by
        simp only [List.length_cons]
        omega
      rw [lastZipValue, htail, h3, List.get?_cons_succ, hw2]

/-- With duplicate-free column names and a raw row no longer than the column
list, the only position whose key is the `j`-th name is `j` itself, so
`lastZipValue` returns the `j`-th raw value. -/
theorem lastZipValue_nodup (cols : List String) (hnd : cols.Nodup)
    (r : List JsValue) :
    ∀ (j0 j : Nat) (nm : String), cols.get? j = some nm → j0 ≤ j →
    j < j0 + r.length → j0 + r.length ≤ cols.length →
    lastZipValue cols j0 r nm = r.get? (j - j0) := by
  induction r with
  | nil => intro j0 j nm _ h1 h2 _; simp at h2; omega
  | cons v vs ih =>
    intro j0 j nm hj hle hlt hlen
    simp only [List.length_cons] at hlt hlen
    by_cases hjj : j = j0
    · subst hjj
      have htail : lastZipValue cols (j + 1) vs nm = none := by
        apply lastZipValue_eq_none
        intro t ht hcon
        have hlt2 : j + 1 + t < cols.length := by omega
        have : cols.get? (j + 1 + t) = some nm := by
          unfold jsKey at hcon
          cases hg : cols.get? (j + 1 + t) with
          | none => rw [List.get?_eq_none] at hg; omega
          | some nm2 => rw [hg] at hcon; simpa [hcon] using hcon ▸ rfl
        have := List.get?_inj (by omega) hnd (this.trans hj.symm)
        omega
      have hkey : jsKey cols j = nm := by
        unfold jsKey
        rw [hj]
        rfl
      simp [lastZipValue, htail, hkey]
    · have hlt0 : j0 < j := lt_of_le_of_ne hle (fun h => hjj h.symm)
      have htail : lastZipValue cols (j0 + 1) vs nm = vs.get? (j - (j0 + 1)) :=
        ih (j0 + 1) j nm hj (by omega) (by omega) (by omega)
      have hsome : (vs.get? (j - (j0 + 1))).isSome := by
        rw [Option.isSome_iff_ne_none]
        intro hcon
        rw [List.get?_eq_none] at hcon
        omega
      obtain ⟨w2, hw2⟩ := Option.isSome_iff_exists.mp hsome
      simp only [lastZipValue, htail, hw2]
      rw [← hw2]
      have : j - j0 = (j - (j0 + 1)) + 1 := by omega
      rw [this]
      rfl

/-! Claim theorems about the SQL result normalization and cookie parser. -/

/-- C3 counterexample: `makeQueryResult` copies `data` and `error_message`
through unconditionally, so a payload with `type = "error"` and a data row
yields non-empty rows, and a payload with `type = "ok"` and an
`error_message` yields a result whose error message is set although the
type is not `error`. -/
theorem makeQueryResult_invariant_cex :
    (makeQueryResult errorWithDataResponse).type = "error" ∧
    (makeQueryResult errorWithDataResponse).rows ≠ [] ∧
    (makeQueryResult okWithMessageResponse).type = "ok" ∧
    (makeQueryResult okWithMessageResponse).error_message = some "x" := by
  refine ⟨rfl, by decide, rfl, rfl⟩

/-- C3 (amended): every result built from a response without data rows
(`data` absent or empty) has empty rows; `error_message` and `type` always
equal the corresponding payload fields, whatever the response type. -/
theorem makeQueryResult_error_shape (resp : SqlApiResponse)
    (hdata : resp.data = none ∨ resp.data = some []) :
    (makeQueryResult resp).rows = [] ∧
    (makeQueryResult resp).error_message = resp.error_message ∧
    (makeQueryResult resp).type = resp.type := by
  refine ⟨?_, rfl, rfl⟩
  rcases hdata with h | h <;> simp [makeQueryResult, h]

/-- Witness for C3: a 2xx response with `type = "error"`, message `boom` and
no data yields empty rows and error message `boom`. -/
theorem makeQueryResult_error_shape_witness :
    (makeQueryResult errorBoomResponse).rows = [] ∧
    (makeQueryResult errorBoomResponse).error_message = some "boom" ∧
    (makeQueryResult errorBoomResponse).type = "error" := by
  have h := makeQueryResult_error_shape errorBoomResponse (Or.inl rfl)
  exact ⟨h.1, h.2.1.trans rfl, h.2.2.trans rfl⟩

/-- C4 counterexample: when two column names collide after lower-casing, the
row record does not map the earlier lower-cased column name to the value at
its own position — the later position wins — so the claimed positional-zip
reading fails at `Col_A`/`col_a` with row `v1`, `v2` and index `0`. -/
theorem makeQueryResult_zip_cex :
    ¬ (∀ (resp : SqlApiResponse) (cols : List String) (r : List JsValue),
        resp.column_names = some cols → resp.data = some [r] →
        ∀ j, j < r.length → j < cols.length →
        objGet ((makeQueryResult resp).rows.headD [])
          ((cols.map toLowerCase).getD j "undefined") = r.get? j) := by
  intro h
  have h0 := h collideResponse ["Col_A", "col_a"] [JsValue.str "v1", JsValue.str "v2"]
    rfl rfl 0 (by decide) (by decide)
  revert h0
  decide

/-- C4 (amended): `makeQueryResult` lower-cases every column name and maps
each raw data row in order through the assignment loop; provided the
lower-cased names are pairwise distinct and the row is not longer than the
column list, the resulting record maps the `j`-th lower-cased name to the
`j`-th raw value (positional zip). -/
theorem makeQueryResult_positional_zip (resp : SqlApiResponse)
    (cols : List String) (drows : List (List JsValue))
    (hcols : resp.column_names = some cols) (hdata : resp.data = some drows) :
    (makeQueryResult resp).columnNames = cols.map toLowerCase ∧
    (makeQueryResult resp).rows =
      drows.map (fun r => buildRow (cols.map toLowerCase) r) ∧
    ((cols.map toLowerCase).Nodup →
      ∀ r, r ∈ drows → r.length ≤ cols.length →
      ∀ (j : Nat) (nm : String), (cols.map toLowerCase).get? j = some nm →
      j < r.length →
      objGet (buildRow (cols.map toLowerCase) r) nm = r.get? j) := by
  refine ⟨by simp [makeQueryResult, hcols], by simp [makeQueryResult, hcols, hdata], ?_⟩
  intro hnd r _ hlen j nm hj hjr
  have hchar := objGet_buildRowFrom (cols.map toLowerCase) r 0 [] nm
  have hlz : lastZipValue (cols.map toLowerCase) 0 r nm = r.get? (j - 0) := by
    apply lastZipValue_nodup _ hnd r 0 j nm hj (Nat.zero_le j)
      (by simpa using hjr)
      (by simp only [Nat.zero_add, List.length_map]; exact hlen)
  rw [Nat.sub_zero] at hlz
  rw [buildRow, hchar, hlz]
  have hsome : (r.get? j).isSome := by
    rw [Option.isSome_iff_ne_none]
    intro hc
    rw [List.get?_eq_none] at hc
    omega
  obtain ⟨y, hy⟩ := Option.isSome_iff_exists.mp hsome
  rw [hy]

/-- Witness for C4: on columns `Col_A`, `COL_B` with one row `v1`, `v2`,
the column names come back lower-cased and the row maps `col_a` to `v1` and
`col_b` to `v2`. -/
theorem makeQueryResult_positional_zip_witness :
    (makeQueryResult specTestResponse).columnNames = ["col_a", "col_b"] ∧
    objGet (buildRow ["col_a", "col_b"] [JsValue.str "v1", JsValue.str "v2"]) "col_a"
      = some (JsValue.str "v1") ∧
    objGet (buildRow ["col_a", "col_b"] [JsValue.str "v1", JsValue.str "v2"]) "col_b"
      = some (JsValue.str "v2") := by
  have h := makeQueryResult_positional_zip specTestResponse ["Col_A", "COL_B"]
    [[JsValue.str "v1", JsValue.str "v2"]] rfl rfl
  have hz := h.2.2 (by decide) [JsValue.str "v1", JsValue.str "v2"]
    (by simp) (by decide)
  refine ⟨h.1.trans (by decide), ?_, ?_⟩
  · exact (hz 0 "col_a" (by decide) (by decide)).trans (by decide)
  · exact (hz 1 "col_b" (by decide) (by decide)).trans (by decide)

/-- C9: each row record is built by the assignment loop, its keys are
duplicate-free (one entry per distinct lower-cased name), and reading any
key returns the raw value at the last position whose lower-cased column
name is that key; concretely, colliding columns `Col_A`/`col_a` with row
`v1`, `v2` produce a single-entry record holding `v2`, shorter than the
column name list. -/
theorem makeQueryResult_collision (resp : SqlApiResponse)
    (cols : List String) (drows : List (List JsValue))
    (hcols : resp.column_names = some cols) (hdata : resp.data = some drows) :
    ((makeQueryResult resp).rows =
      drows.map (fun r => buildRow (cols.map toLowerCase) r)) ∧
    (∀ r, r ∈ drows →
      (((buildRow (cols.map toLowerCase) r).map Prod.fst).Nodup ∧
        ∀ k, objGet (buildRow (cols.map toLowerCase) r) k =
          lastZipValue (cols.map toLowerCase) 0 r k)) ∧
    ((makeQueryResult collideResponse).rows = [[("col_a", JsValue.str "v2")]] ∧
      ((makeQueryResult collideResponse).rows.headD []).length <
        (makeQueryResult collideResponse).columnNames.length) := by
  refine ⟨by simp [makeQueryResult, hcols, hdata], ?_, by decide, by decide⟩
  intro r _
  refine ⟨nodupKeys_buildRowFrom _ r 0 [] (by simp), ?_⟩
  intro k
  have hchar := objGet_buildRowFrom (cols.map toLowerCase) r 0 [] k
  rw [buildRow, hchar]
  cases hz : lastZipValue (cols.map toLowerCase) 0 r k <;> simp [objGet]

/-- Witness for C9: the general characterization applied to the colliding
payload: the record keys are duplicate-free and `col_a` reads back the
last-position value. -/
theorem makeQueryResult_collision_witness :
    ((buildRow (["Col_A", "col_a"].map toLowerCase)
        [JsValue.str "v1", JsValue.str "v2"]).map Prod.fst).Nodup ∧
    objGet (buildRow (["Col_A", "col_a"].map toLowerCase)
        [JsValue.str "v1", JsValue.str "v2"]) "col_a"
      = lastZipValue (["Col_A", "col_a"].map toLowerCase) 0
          [JsValue.str "v1", JsValue.str "v2"] "col_a" := by
  have h := makeQueryResult_collision collideResponse ["Col_A", "col_a"]
    [[JsValue.str "v1", JsValue.str "v2"]] rfl rfl
  have h2 := h.2.1 [JsValue.str "v1", JsValue.str "v2"] (by simp)
  exact ⟨h2.1, h2.2 "col_a"⟩

/-- C10: `makeQueryResult` is total on degenerate payloads: an absent
`column_names` yields empty column names, an absent `data` yields empty
rows, and a data row longer than the column list stores its overflow values
under the key `"undefined"` (the last overflow value surviving), instead of
failing. -/
theorem makeQueryResult_degenerate :
    (∀ resp : SqlApiResponse, resp.column_names = none →
      (makeQueryResult resp).columnNames = []) ∧
    (∀ resp : SqlApiResponse, resp.data = none → (makeQueryResult resp).rows = []) ∧
    (∀ (resp : SqlApiResponse) (cols : List String) (r : List JsValue),
      resp.column_names = some cols → resp.data = some [r] →
      cols.length < r.length →
      (makeQueryResult resp).rows = [buildRow (cols.map toLowerCase) r] ∧
      objGet (buildRow (cols.map toLowerCase) r) "undefined"
        = r.get? (r.length - 1)) := by
  refine ⟨?_, ?_, ?_⟩
  · intro resp h
    simp [makeQueryResult, h]
  · intro resp h
    simp [makeQueryResult, h]
  · intro resp cols r hcols hdata hlen
    refine ⟨by simp [makeQueryResult, hcols, hdata], ?_⟩
    have hne : r ≠ [] := by
      intro h
      subst h
      simp at hlen
    have hkey : jsKey (cols.map toLowerCase) (0 + r.length - 1) = "undefined" := by
      unfold jsKey
      have hg : (cols.map toLowerCase).get? (0 + r.length - 1) = none := by
        rw [List.get?_eq_none, List.length_map]
        omega
      rw [hg]
      rfl
    have hlast := lastZipValue_lastPos (cols.map toLowerCase) r 0 "undefined" hne hkey
    have hchar := objGet_buildRowFrom (cols.map toLowerCase) r 0 [] "undefined"
    rw [buildRow, hchar, hlast]
    have hsome : (r.get? (r.length - 1)).isSome := by
      rw [Option.isSome_iff_ne_none]
      intro hc
      rw [List.get?_eq_none] at hc
      omega
    obtain ⟨y, hy⟩ := Option.isSome_iff_exists.mp hsome
    rw [hy]

/-- Witness for C10: the empty payload yields empty column names and rows,
and the one-column payload with a two-value row stores `v2` under
`"undefined"`. -/
theorem makeQueryResult_degenerate_witness :
    (makeQueryResult emptyApiResponse).columnNames = [] ∧
    (makeQueryResult emptyApiResponse).rows = [] ∧
    objGet (buildRow (["a"].map toLowerCase) [JsValue.str "v1", JsValue.str "v2"])
        "undefined" = some (JsValue.str "v2") := by
  refine ⟨makeQueryResult_degenerate.1 emptyApiResponse rfl,
    (makeQueryResult_degenerate.2.1) emptyApiResponse rfl, ?_⟩
  have h := (makeQueryResult_degenerate.2.2 longRowResponse ["a"]
    [JsValue.str "v1", JsValue.str "v2"] rfl rfl (by decide)).2
  exact h.trans (by decide)

/-- The split worker always produces at least one piece. -/
theorem splitCharAux_ne_nil (sep : Char) (cs acc : List Char) :
    splitCharAux sep cs acc ≠ [] := by
  induction cs generalizing acc with
  | nil => simp [splitCharAux]
  | cons c cs2 ih =>
    by_cases h : c = sep <;> simp [splitCharAux, h, ih]

/-- A JavaScript split never returns an empty list of pieces. -/
theorem jsSplit_ne_nil (s : String) (sep : Char) : jsSplit s sep ≠ [] :=
  splitCharAux_ne_nil sep s.data []

/-- C6: `getCookieValue` returns the value of the leading
semicolon-separated attribute of the first raw cookie header whose leading
attribute key equals the wanted name (case-sensitively), and `none` when no
header matches; being a plain function of its arguments, it has no side
effects. -/
theorem getCookieValue_firstMatch (allCookies : List String) (cookieKey : String) :
    getCookieValue allCookies cookieKey =
      (allCookies.find? (fun c => leadingAttrKey c = cookieKey)).bind
        (fun c => leadingAttrValue c) := by
  induction allCookies with
  | nil => rfl
  | cons c rest ih =>
    rw [getCookieValue]
    have hkv : ((jsSplit c ';').map (fun comp => jsSplit (jsTrim comp) '=')).headD [] =
        jsSplit (jsTrim ((jsSplit c ';').headD "")) '=' := by
      cases hs : jsSplit c ';' with
      | nil => exact absurd hs (jsSplit_ne_nil c ';')
      | cons a as => simp
    rw [hkv]
    by_cases hk : (jsSplit (jsTrim ((jsSplit c ';').headD "")) '=').headD "" = cookieKey
    · rw [if_pos hk, List.find?_cons_of_pos _ (by simpa [leadingAttrKey] using hk)]
      rfl
    · rw [if_neg hk, List.find?_cons_of_neg _ (by simpa [leadingAttrKey] using hk), ih]

/-! Theorems about the authenticator and the retry interceptor. -/

/-- The single transport invocation of `authenticate` is the login POST
carrying the just-stored credentials, whatever its outcome. -/
theorem authenticate_calls (w : World) (user password : String)
    (managed : Option Bool) :
    (authenticate w user password managed).1.calls =
      w.calls ++ [loginRequestConfig w.baseURL user password managed] := by
  unfold authenticate rawCall
  cases h : w.transport w.calls.length
    (loginRequestConfig w.baseURL user password managed) <;> simp [h]

/-- C7: after every `authenticate` call — whether the login POST succeeds
or raises — the stored user, password and managed flag equal the arguments
of that call (an absent `managed` argument being stored as `false`), so a
later reauthentication replays the most recently supplied credentials. -/
theorem authenticate_stores_credentials (w : World) (user password : String)
    (managed : Option Bool) :
    (authenticate w user password managed).1.auth.user = user ∧
    (authenticate w user password managed).1.auth.password = password ∧
    (authenticate w user password managed).1.auth.managed = managed.getD false := by
  unfold authenticate rawCall
  cases h : w.transport w.calls.length
    (loginRequestConfig w.baseURL user password managed) <;> simp [h]

/-- C2: `handleReauthentication` returns `false` with the world untouched
(hence no network call) when the observed error is absent, when the stored
session is falsy, when the error carries no response, and when the response
status is neither 401 nor 403; with an established session and a 401 or 403
response it performs exactly one login call with the stored credentials,
returning `true` when that login succeeds and propagating its failure
otherwise. -/
theorem handleReauthentication_spec :
    (∀ w : World, handleReauthentication w none = (w, .ok false)) ∧
    (∀ (w : World) (e : Option AxiosErrorModel), isFalsy w.auth.session = true →
      handleReauthentication w e = (w, .ok false)) ∧
    (∀ (w : World) (err : AxiosErrorModel), err.response = none →
      handleReauthentication w (some err) = (w, .ok false)) ∧
    (∀ (w : World) (err : AxiosErrorModel) (resp : HttpResponseModel),
      err.response = some resp → resp.status ≠ HttpStatusCode.Unauthorized →
      resp.status ≠ HttpStatusCode.Forbidden →
      handleReauthentication w (some err) = (w, .ok false)) ∧
    (∀ (w : World) (err : AxiosErrorModel) (resp : HttpResponseModel),
      isFalsy w.auth.session = false → err.response = some resp →
      (resp.status = HttpStatusCode.Unauthorized ∨
        resp.status = HttpStatusCode.Forbidden) →
      (handleReauthentication w (some err)).1 =
        (authenticate w w.auth.user w.auth.password (some w.auth.managed)).1 ∧
      (handleReauthentication w (some err)).1.calls =
        w.calls ++ [loginRequestConfig w.baseURL w.auth.user w.auth.password
          (some w.auth.managed)] ∧
      (handleReauthentication w (some err)).2 =
        (authenticate w w.auth.user w.auth.password (some w.auth.managed)).2.map
          (fun _ => true)) := by
  refine ⟨fun w => rfl, ?_, ?_, ?_, ?_⟩
  · intro w e hs
    cases e with
    | none => rfl
    | some err => simp [handleReauthentication, hs]
  · intro w err hr
    by_cases hs : isFalsy w.auth.session = true
    · simp [handleReauthentication, hs]
    · simp [handleReauthentication, Bool.eq_false_iff.mpr hs, hr]
  · intro w err resp hr h1 h3
    by_cases hs : isFalsy w.auth.session = true
    · simp [handleReauthentication, hs]
    · simp [handleReauthentication, Bool.eq_false_iff.mpr hs, hr, h1, h3]
  · intro w err resp hs hr hst
    have hcond : ¬ (resp.status ≠ HttpStatusCode.Unauthorized ∧
        resp.status ≠ HttpStatusCode.Forbidden) := by
      rcases hst with h | h <;> simp [h]
    have hunfold : handleReauthentication w (some err) =
        (match authenticate w w.auth.user w.auth.password (some w.auth.managed) with
         | (w1, .error e) => (w1, .error e)
         | (w1, .ok _) => (w1, .ok true)) := by
      simp [handleReauthentication, hs, hr, hcond]
    cases ha : authenticate w w.auth.user w.auth.password (some w.auth.managed) with
    | mk w1 r =>
      have hc1 : w1.calls = w.calls ++ [loginRequestConfig w.baseURL w.auth.user
          w.auth.password (some w.auth.managed)] := by
        have h2 := authenticate_calls w w.auth.user w.auth.password (some w.auth.managed)
        rw [ha] at h2
        exact h2
      rw [hunfold, ha]
      cases r with
      | error e2 => exact ⟨rfl, hc1, rfl⟩
      | ok u => exact ⟨rfl, hc1, rfl⟩

/-- Witness for C2: no session yields `false`; a 500 yields `false`; with a
session, a 401 and a 403 each yield `true` after exactly the login call
with the stored credentials. -/
theorem handleReauthentication_spec_witness :
    handleReauthentication noSessionWorld (some unauthorizedError)
      = (noSessionWorld, .ok false) ∧
    handleReauthentication authedWorld (some serverError) = (authedWorld, .ok false) ∧
    (handleReauthentication authedWorld (some unauthorizedError)).2 = .ok true ∧
    (handleReauthentication authedWorld (some unauthorizedError)).1.calls =
      [loginRequestConfig authedWorld.baseURL "alice" "pw" (some false)] ∧
    (handleReauthentication authedWorld (some forbiddenError)).2 = .ok true := by
  refine ⟨handleReauthentication_spec.2.1 noSessionWorld (some unauthorizedError) rfl,
    handleReauthentication_spec.2.2.2.1 authedWorld serverError _ rfl
      (by decide) (by decide), ?_, ?_, ?_⟩
  · have h := (handleReauthentication_spec.2.2.2.2 authedWorld unauthorizedError _
      rfl rfl (Or.inl rfl)).2.2
    rw [h]
    rfl
  · have h := (handleReauthentication_spec.2.2.2.2 authedWorld unauthorizedError _
      rfl rfl (Or.inl rfl)).2.1
    rw [h]
    rfl
  · have h := (handleReauthentication_spec.2.2.2.2 authedWorld forbiddenError _
      rfl rfl (Or.inr rfl)).2.2
    rw [h]
    rfl

/-- Appending a login call leaves the query-call count unchanged. -/
theorem queryCallCount_append_login (l : List RequestConfig) (c : RequestConfig)
    (h : isLoginCall c = true) : queryCallCount (l ++ [c]) = queryCallCount l := by
  simp [queryCallCount, List.filter_append, h]

/-- Appending any call raises the query-call count by at most one. -/
theorem queryCallCount_append_le (l : List RequestConfig) (c : RequestConfig) :
    queryCallCount (l ++ [c]) ≤ queryCallCount l + 1 := by
  simp only [queryCallCount, List.filter_append, List.length_append]
  cases h : (!isLoginCall c) <;> simp [List.filter, h]

/-- Reauthentication adds only login calls to the transport log, so the
query-call count is unchanged by it. -/
theorem handleReauthentication_queryCallCount (w : World)
    (e : Option AxiosErrorModel) :
    queryCallCount (handleReauthentication w e).1.calls = queryCallCount w.calls := by
  cases e with
  | none => rfl
  | some err =>
    by_cases hs : isFalsy w.auth.session = true
    · simp [handleReauthentication, hs]
    · cases hr : err.response with
      | none => simp [handleReauthentication, Bool.eq_false_iff.mpr hs, hr]
      | some resp =>
        by_cases hcond : resp.status ≠ HttpStatusCode.Unauthorized ∧
            resp.status ≠ HttpStatusCode.Forbidden
        · simp [handleReauthentication, Bool.eq_false_iff.mpr hs, hr, hcond]
        · have hunfold : handleReauthentication w (some err) =
              (match authenticate w w.auth.user w.auth.password (some w.auth.managed) with
               | (w1, .error e2) => (w1, .error e2)
               | (w1, .ok _) => (w1, .ok true)) := by
            simp [handleReauthentication, Bool.eq_false_iff.mpr hs, hr, hcond]
          cases ha : authenticate w w.auth.user w.auth.password (some w.auth.managed) with
          | mk w1 r =>
            have hc1 : w1.calls = w.calls ++ [loginRequestConfig w.baseURL w.auth.user
                w.auth.password (some w.auth.managed)] := by
              have h2 := authenticate_calls w w.auth.user w.auth.password (some w.auth.managed)
              rw [ha] at h2
              exact h2
            have hq : queryCallCount w1.calls = queryCallCount w.calls := by
              rw [hc1]
              exact queryCallCount_append_login _ _ rfl
            rw [hunfold, ha]
            cases r <;> simpa using hq

/-- A client request whose configuration is already marked retried makes at
most one further query-style transport call: a failure is rethrown by the
interceptor without reauthentication or replay. -/
theorem axiosRequest_retried_bound (fuel : Nat) (w : World) (cfg : RequestConfig)
    (h : cfg.retried = true) :
    queryCallCount (axiosRequest fuel w cfg).1.calls ≤ queryCallCount w.calls + 1 := by
  cases fuel with
  | zero => simp [axiosRequest]
  | succ fuel =>
    rw [axiosRequest]
    unfold rawCall
    cases ht : w.transport w.calls.length cfg with
    | success r => simpa using queryCallCount_append_le w.calls cfg
    | failure e => simpa [retryWith, h] using queryCallCount_append_le w.calls cfg

/-- Any intercepted client request makes at most two query-style transport
calls beyond the existing log: the original attempt and at most one
replay. -/
theorem axiosRequest_query_bound (fuel : Nat) (w : World) (cfg : RequestConfig) :
    queryCallCount (axiosRequest fuel w cfg).1.calls ≤ queryCallCount w.calls + 2 := by
  cases fuel with
  | zero => simp [axiosRequest]
  | succ fuel =>
    rw [axiosRequest]
    unfold rawCall
    have happ := queryCallCount_append_le w.calls cfg
    cases ht : w.transport w.calls.length cfg with
    | success r =>
      simpa using happ.trans (by omega)
    | failure e =>
      simp only [retryWith]
      by_cases hret : cfg.retried
      · simpa [hret] using happ.trans (by omega)
      · simp only [hret, if_false, Bool.false_eq_true]
        cases hh : handleReauthentication { w with calls := w.calls ++ [cfg] }
            (some { e with config := some cfg }) with
        | mk w2 r =>
          have hq2 : queryCallCount w2.calls = queryCallCount (w.calls ++ [cfg]) := by
            have h2 := handleReauthentication_queryCallCount
              { w with calls := w.calls ++ [cfg] } (some { e with config := some cfg })
            rw [hh] at h2
            exact h2
          cases r with
          | error e2 =>
            simpa using (le_of_eq hq2).trans (happ.trans (by omega))
          | ok b =>
            cases b with
            | false =>
              simpa using (le_of_eq hq2).trans (happ.trans (by omega))
            | true =>
              have hbound := axiosRequest_retried_bound fuel w2
                { cfg with
                  headers := { Cookie := some ("session=" ++ sessionText w2.auth.session) }
                  retried := true } rfl
              calc queryCallCount (axiosRequest fuel w2
                    { cfg with
                      headers := { Cookie := some ("session=" ++ sessionText w2.auth.session) }
                      retried := true }).1.calls
                  ≤ queryCallCount w2.calls + 1 := hbound
                _ = queryCallCount (w.calls ++ [cfg]) + 1 := by rw [hq2]
                _ ≤ queryCallCount w.calls + 2 := by omega

/-- C1: a failing request whose captured configuration already carries the
one-shot retried marker is rethrown by `retryUnauthenticatedRequest`
unchanged, with no reauthentication and no replay (the world, hence the
transport log and authenticator, is untouched); consequently an intercepted
logical request issues at most two query-style transport calls in total —
the original plus at most one replay — whatever the server answers,
including a server that answers 401 to every attempt. -/
theorem retried_request_rethrows :
    (∀ (fuel : Nat) (w : World) (e : AxiosErrorModel) (cfg : RequestConfig),
      e.config = some cfg → cfg.retried = true →
      retryUnauthenticatedRequest fuel w e = (w, .error e)) ∧
    (∀ (fuel : Nat) (w : World) (cfg : RequestConfig),
      queryCallCount (axiosRequest fuel w cfg).1.calls ≤ queryCallCount w.calls + 2) := by
  constructor
  · intro fuel w e cfg hc hr
    unfold retryUnauthenticatedRequest retryWith
    rw [hc]
    simp [hr]
  · intro fuel w cfg
    exact axiosRequest_query_bound fuel w cfg

/-- Witness for C1: the already-retried 401 error is rethrown with the
world untouched, and the always-401 world sees at most two query calls. -/
theorem retried_request_rethrows_witness :
    retriedError.config = some retriedConfig ∧ retriedConfig.retried = true ∧
    retryUnauthenticatedRequest 3 always401World retriedError
      = (always401World, .error retriedError) ∧
    queryCallCount (axiosRequest 5 always401World scenarioConfig).1.calls
      ≤ queryCallCount always401World.calls + 2 :=
  ⟨rfl, rfl,
    retried_request_rethrows.1 3 always401World retriedError retriedConfig rfl rfl,
    retried_request_rethrows.2 5 always401World scenarioConfig⟩

/-- The interceptor body rethrows an error whose captured configuration is
already marked retried. -/
theorem retryWith_retried
    (request : World → RequestConfig → World × Except AxiosErrorModel HttpResponseModel)
    (w : World) (e : AxiosErrorModel) (cfg : RequestConfig)
    (hc : e.config = some cfg) (hr : cfg.retried = true) :
    retryWith request w e = (w, .error e) := by
  unfold retryWith
  rw [hc]
  simp [hr]

/-- The interceptor body, when reauthentication succeeds, replays the
original configuration with the fresh session cookie and the marker set. -/
theorem retryWith_reauth_true
    (request : World → RequestConfig → World × Except AxiosErrorModel HttpResponseModel)
    (w w1 : World) (e : AxiosErrorModel) (cfg : RequestConfig)
    (hc : e.config = some cfg) (hr : cfg.retried = false)
    (hh : handleReauthentication w (some e) = (w1, .ok true)) :
    retryWith request w e = request w1 (retriedReplayConfig cfg w1) := by
  unfold retryWith retriedReplayConfig
  rw [hc]
  simp [hr, hh]

/-- The interceptor body rethrows the original error when reauthentication
declines. -/
theorem retryWith_reauth_false
    (request : World → RequestConfig → World × Except AxiosErrorModel HttpResponseModel)
    (w w1 : World) (e : AxiosErrorModel) (cfg : RequestConfig)
    (hc : e.config = some cfg) (hr : cfg.retried = false)
    (hh : handleReauthentication w (some e) = (w1, .ok false)) :
    retryWith request w e = (w1, .error e) := by
  unfold retryWith
  rw [hc]
  simp [hr, hh]

/-- C5: for a failing request with a captured, not-yet-retried
configuration, a successful reauthentication makes the interceptor replay
exactly that configuration — `Cookie` header set to the fresh session,
one-shot marker set — through the transport once, returning the replay's
response when it succeeds; a declined reauthentication rethrows the
original error object unchanged.  In the concrete 401-then-200 scenario the
final result is the 200 response with exactly two query transport
invocations (original plus replay) and one login call. -/
theorem retry_replays_and_returns :
    (∀ (fuel : Nat) (w w1 : World) (e : AxiosErrorModel) (cfg : RequestConfig),
      e.config = some cfg → cfg.retried = false →
      handleReauthentication w (some e) = (w1, .ok true) →
      retryUnauthenticatedRequest fuel w e =
        axiosRequest fuel w1 (retriedReplayConfig cfg w1)) ∧
    (∀ (fuel : Nat) (w w1 : World) (e : AxiosErrorModel) (cfg : RequestConfig)
      (r : HttpResponseModel),
      e.config = some cfg → cfg.retried = false →
      handleReauthentication w (some e) = (w1, .ok true) →
      w1.transport w1.calls.length (retriedReplayConfig cfg w1) = .success r →
      retryUnauthenticatedRequest (fuel + 1) w e =
        ({ w1 with calls := w1.calls ++ [retriedReplayConfig cfg w1] }, .ok r)) ∧
    (∀ (fuel : Nat) (w w1 : World) (e : AxiosErrorModel) (cfg : RequestConfig),
      e.config = some cfg → cfg.retried = false →
      handleReauthentication w (some e) = (w1, .ok true) →
      (retryUnauthenticatedRequest (fuel + 1) w e).1.calls =
        w1.calls ++ [retriedReplayConfig cfg w1]) ∧
    (∀ (fuel : Nat) (w w1 : World) (e : AxiosErrorModel) (cfg : RequestConfig),
      e.config = some cfg → cfg.retried = false →
      handleReauthentication w (some e) = (w1, .ok false) →
      retryUnauthenticatedRequest fuel w e = (w1, .error e)) ∧
    ((axiosRequest 3 scenarioWorld scenarioConfig).2 = .ok tableOkResponse ∧
      queryCallCount (axiosRequest 3 scenarioWorld scenarioConfig).1.calls = 2 ∧
      loginCallCount (axiosRequest 3 scenarioWorld scenarioConfig).1.calls = 1) := by
  have hmain : ∀ (fuel : Nat) (w w1 : World) (e : AxiosErrorModel) (cfg : RequestConfig),
      e.config = some cfg → cfg.retried = false →
      handleReauthentication w (some e) = (w1, .ok true) →
      retryUnauthenticatedRequest fuel w e =
        axiosRequest fuel w1 (retriedReplayConfig cfg w1) := by
    intro fuel w w1 e cfg hc hr hh
    exact retryWith_reauth_true _ w w1 e cfg hc hr hh
  have hstep : ∀ (fuel : Nat) (w1 : World) (cfg2 : RequestConfig),
      cfg2.retried = true →
      (∀ r, w1.transport w1.calls.length cfg2 = .success r →
        axiosRequest (fuel + 1) w1 cfg2 =
          ({ w1 with calls := w1.calls ++ [cfg2] }, .ok r)) ∧
      (axiosRequest (fuel + 1) w1 cfg2).1.calls = w1.calls ++ [cfg2] := by
    intro fuel w1 cfg2 hret
    constructor
    · intro r hts
      rw [axiosRequest]
      unfold rawCall
      rw [hts]
    · rw [axiosRequest]
      unfold rawCall
      cases hts : w1.transport w1.calls.length cfg2 with
      | success r => rfl
      | failure e2 =>
        show (retryWith (fun w2 cfg3 => axiosRequest fuel w2 cfg3)
            { w1 with calls := w1.calls ++ [cfg2] }
            { e2 with config := some cfg2 }).1.calls = w1.calls ++ [cfg2]
        rw [retryWith_retried _ _ { e2 with config := some cfg2 } cfg2 rfl hret]
  refine ⟨hmain, ?_, ?_, ?_, rfl, rfl, rfl⟩
  · intro fuel w w1 e cfg r hc hr hh hts
    rw [hmain (fuel + 1) w w1 e cfg hc hr hh]
    exact (hstep fuel w1 (retriedReplayConfig cfg w1) rfl).1 r hts
  · intro fuel w w1 e cfg hc hr hh
    rw [hmain (fuel + 1) w w1 e cfg hc hr hh]
    exact (hstep fuel w1 (retriedReplayConfig cfg w1) rfl).2
  · intro fuel w w1 e cfg hc hr hh
    exact retryWith_reauth_false _ w w1 e cfg hc hr hh

/-- Witness for C5: in the 401-then-200 scenario the interceptor, invoked
on the 401 error after reauthentication succeeded, replays the marked
configuration and returns the 200 response; the end-to-end scenario counts
follow from the theorem as well. -/
theorem retry_replays_and_returns_witness :
    scenarioError.config = some scenarioConfig ∧
    scenarioConfig.retried = false ∧
    retryUnauthenticatedRequest 1 scenarioAfter401 scenarioError =
      ({ scenarioReauthedWorld with
          calls := scenarioReauthedWorld.calls ++
            [retriedReplayConfig scenarioConfig scenarioReauthedWorld] },
        .ok tableOkResponse) ∧
    (axiosRequest 3 scenarioWorld scenarioConfig).2 = .ok tableOkResponse := by
  have hh : handleReauthentication scenarioAfter401 (some scenarioError) =
      (scenarioReauthedWorld, .ok true) := by
    have h2 : (handleReauthentication scenarioAfter401 (some scenarioError)).2 =
        .ok true := rfl
    exact Prod.ext rfl h2
  refine ⟨rfl, rfl, ?_, retry_replays_and_returns.2.2.2.2.1⟩
  exact retry_replays_and_returns.2.1 0 scenarioAfter401 scenarioReauthedWorld
    scenarioError scenarioConfig tableOkResponse rfl rfl hh rfl

set_option maxRecDepth 4000 in
/-- C8 counterexample: for an Axios error (here a 400 response) the message
`runQuery` raises is the status-specific hint alone — the failing query URL
does not occur in it. -/
theorem runQuery_url_cex :
    (runQuery badRequestWorld "SELECT 1").2 = .error
      "Request failed with status code 400.  MindsDB received an invalid request and can\x27t process it." ∧
    ¬ ((getQueryUrl badRequestWorld).data <:+:
      "Request failed with status code 400.  MindsDB received an invalid request and can\x27t process it.".data) := by
  exact ⟨rfl, by decide⟩

/-- C8 (amended): `runQuery` sends its POST exactly once (it never retries
itself); every failure of that POST is wrapped through
`MindsDbError.fromHttpError` with the query URL as argument; an Axios error
maps to the status-specific human-readable hint
(400/401/403/404/408/429/5xx) or the no-response message — the URL is not
part of those messages — while a non-Axios thrown value is wrapped into a
generic message that does carry the failing query URL. -/
theorem runQuery_error_wrapping :
    (∀ (w : World) (q : String),
      (runQuery w q).1.calls = w.calls ++ [queryRequestConfig w q]) ∧
    (∀ (w : World) (q : String) (e : AxiosErrorModel),
      w.transport w.calls.length (queryRequestConfig w q) = .failure e →
      (runQuery w q).2 = .error (fromHttpError
        (.axios { e with config := some (queryRequestConfig w q) }) (getQueryUrl w))) ∧
    (∀ (e : AxiosErrorModel) (resp : HttpResponseModel), e.response = some resp →
      (resp.status = HttpStatusCode.BadRequest →
        fromAxiosError e = getBaseAxiosErrorMessage e ++
          " MindsDB received an invalid request and can\x27t process it.") ∧
      (resp.status = HttpStatusCode.Unauthorized →
        fromAxiosError e = getBaseAxiosErrorMessage e ++
          " Did you provide the right username and password to the \x27connect\x27 method before using the SDK?") ∧
      (resp.status = HttpStatusCode.Forbidden →
        fromAxiosError e = getBaseAxiosErrorMessage e ++
          " You don\x27t have permission to access this resource. Did you provide the right username and password to the \x27connect\x27 method before using the SDK?") ∧
      (resp.status = HttpStatusCode.NotFound →
        fromAxiosError e = getBaseAxiosErrorMessage e ++
          " This MindsDB resource doesn\x27t exist.") ∧
      (resp.status = HttpStatusCode.TooManyRequests →
        fromAxiosError e = getBaseAxiosErrorMessage e ++
          " The number of requests you sent has exceeded the MindsDB API limit. Please contact us to request a limit increase.") ∧
      (resp.status = HttpStatusCode.RequestTimeout ∨
          resp.status = HttpStatusCode.GatewayTimeout →
        fromAxiosError e = getBaseAxiosErrorMessage e ++
          " The request took too long to complete. Please try again.") ∧
      (resp.status = HttpStatusCode.InternalServerError ∨
          resp.status = HttpStatusCode.BadGateway ∨
          resp.status = HttpStatusCode.ServiceUnavailable →
        fromAxiosError e = getBaseAxiosErrorMessage e ++
          " Oops! Something went wrong on our end. Please try again.")) ∧
    (∀ e : AxiosErrorModel, e.response = none → e.request = true →
      fromAxiosError e =
        "The request was made but no response was received. Something may be wrong on our end. Please try again.") ∧
    (∀ s url : String, url.data <:+: (fromHttpError (.other s) url).data) := by
  refine ⟨?_, ?_, ?_, ?_, ?_⟩
  · intro w q
    unfold runQuery rawCall
    cases h : w.transport w.calls.length (queryRequestConfig w q) <;> simp [h]
  · intro w q e ht
    simp only [runQuery, rawCall, ht]
  · intro e resp hresp
    refine ⟨?_, ?_, ?_, ?_, ?_, ?_, ?_⟩
    · intro h
      simp [fromAxiosError, hresp, h, HttpStatusCode.BadRequest]
    · intro h
      simp [fromAxiosError, hresp, h, HttpStatusCode.BadRequest,
        HttpStatusCode.Unauthorized]
    · intro h
      simp [fromAxiosError, hresp, h, HttpStatusCode.BadRequest,
        HttpStatusCode.Unauthorized, HttpStatusCode.Forbidden]
    · intro h
      simp [fromAxiosError, hresp, h, HttpStatusCode.BadRequest,
        HttpStatusCode.Unauthorized, HttpStatusCode.Forbidden,
        HttpStatusCode.NotFound]
    · intro h
      simp [fromAxiosError, hresp, h, HttpStatusCode.BadRequest,
        HttpStatusCode.Unauthorized, HttpStatusCode.Forbidden,
        HttpStatusCode.NotFound, HttpStatusCode.TooManyRequests]
    · intro h
      rcases h with h | h <;>
        simp [fromAxiosError, hresp, h, HttpStatusCode.BadRequest,
          HttpStatusCode.Unauthorized, HttpStatusCode.Forbidden,
          HttpStatusCode.NotFound, HttpStatusCode.TooManyRequests,
          HttpStatusCode.RequestTimeout, HttpStatusCode.GatewayTimeout]
    · intro h
      rcases h with h | h | h <;>
        simp [fromAxiosError, hresp, h, HttpStatusCode.BadRequest,
          HttpStatusCode.Unauthorized, HttpStatusCode.Forbidden,
          HttpStatusCode.NotFound, HttpStatusCode.TooManyRequests,
          HttpStatusCode.RequestTimeout, HttpStatusCode.GatewayTimeout,
          HttpStatusCode.InternalServerError, HttpStatusCode.BadGateway,
          HttpStatusCode.ServiceUnavailable]
  · intro e hresp hreq
    simp [fromAxiosError, hresp, hreq]
  · intro s url
    refine ⟨"Something went wrong handling HTTP POST request to ".data,
      (": " ++ s).data, ?_⟩
    show "Something went wrong handling HTTP POST request to ".data ++
        url.data ++ (": " ++ s).data = (fromHttpError (.other s) url).data
    simp [fromHttpError, String.data_append, List.append_assoc]

/-- Witness for C8: the concrete 400 run makes exactly one transport call,
its result is the wrapped 400 hint message, and the generic wrap of a
non-Axios value carries the URL. -/
theorem runQuery_error_wrapping_witness :
    (runQuery badRequestWorld "SELECT 1").1.calls =
      [queryRequestConfig badRequestWorld "SELECT 1"] ∧
    (runQuery badRequestWorld "SELECT 1").2 = .error
      (fromHttpError (.axios badRequestErrorAttached) (getQueryUrl badRequestWorld)) ∧
    fromAxiosError badRequestError = getBaseAxiosErrorMessage badRequestError ++
      " MindsDB received an invalid request and can\x27t process it." ∧
    "x".data <:+: (fromHttpError (.other "boom") "x").data := by
  refine ⟨?_,
    runQuery_error_wrapping.2.1 badRequestWorld "SELECT 1" badRequestError rfl,
    (runQuery_error_wrapping.2.2.1 badRequestError _ rfl).1 rfl,
    runQuery_error_wrapping.2.2.2.2 "boom" "x"⟩
  have h := runQuery_error_wrapping.1 badRequestWorld "SELECT 1"
  simpa using h

end MindsDbSdk
